import Mathlib

/-!
Verification of `master/buildbot/db/pool.py` (buildbot's `DBThreadPool`,
the event-loop / worker-thread database bridge).

The Python module is embedded shallowly:

* A dispatched call is modelled as the pair of the trace of observable
  events it performs (tick start/stop, task submission, connection
  open/exec/close, delivery of the future's result) and the result the
  returned deferred is fired with (`Except PyErr PyVal`).
* The caller-supplied callable is a function from the connection id (or
  the engine) to `Except PyErr PyVal`: `.error e` models the callable
  raising `e`, `.ok v` models it returning `v`.
* The lifecycle (`_start` / `_stop` / `shutdown`) is a state machine over
  a record of the instance attributes that those methods read and write;
  a Python attribute that may be unassigned, `None`, or an object is
  modelled by the three-valued `Attr`.
* `detect_bug1810` is parametrised by the empirical behaviour of the
  sqlite backend under probe: the outcome of the unmitigated stale read
  (`test()`) and of the refresh-mitigated read
  (`test(select_from_sqlite_master=True)`).
-/

namespace DBPool

/-- Python values a callable may return.  `resultProxy` models a live
`sqlalchemy` `ResultProxy` (streaming result handle); everything else is a
fully materialised value. -/
inductive PyVal where
  | int : Int → PyVal
  | str : String → PyVal
  | resultProxy : Nat → PyVal
  | none : PyVal
deriving DecidableEq, Repr

/-- `isinstance(rv, sa.engine.ResultProxy)` from `do` / `do_with_engine`. -/
def PyVal.isResultProxy : PyVal → Bool
  | .resultProxy _ => true
  | _ => false

/-- Python exceptions relevant to the module. -/
inductive PyErr where
  | valueError : String → PyErr
  | assertionError : String → PyErr
  | operationalError : PyErr
  | attributeError : String → PyErr
  | other : String → PyErr
deriving DecidableEq, Repr

instance : DecidableEq (Except PyErr PyVal) := fun a b =>
  match a, b with
  | .ok x, .ok y => decidable_of_iff (x = y) (by simp)
  | .error x, .error y => decidable_of_iff (x = y) (by simp)
  | .ok _, .error _ => isFalse (by simp)
  | .error _, .ok _ => isFalse (by simp)

/-- Observable events of a single bridge call, in program order. -/
inductive Event where
  /-- `busyloop = task.LoopingCall(lambda: None); busyloop.start(n)` -/
  | loopStart : Nat → Event
  /-- `busyloop.stop()` -/
  | loopStop : Event
  /-- `threads.deferToThreadPool(reactor, self, thd)`: the task is handed
  to a worker thread of the pool. -/
  | submit : Event
  /-- `self.engine.contextual_connect()` returning connection `c`. -/
  | openConn : Nat → Event
  /-- `conn.execute(q)` on connection `c`. -/
  | execQuery : Nat → String → Event
  /-- `self.engine.execute(q)` on the shared engine. -/
  | engineExec : String → Event
  /-- `callable(conn, *args, **kwargs)` invoked with connection `c`. -/
  | callCallable : Nat → Event
  /-- `callable(self.engine, *args, **kwargs)` invoked with the engine. -/
  | callCallableEngine : Event
  /-- `conn.close()` on connection `c`. -/
  | closeConn : Nat → Event
  /-- the deferred returned to the caller fires with result `r`. -/
  | deliver : Except PyErr PyVal → Event
deriving DecidableEq, Repr

/-- The message of the `assert not isinstance(rv, sa.engine.ResultProxy)`
statements. -/
def resultProxyMsg : String := "do not return ResultProxy objects!"

/-- The fixed metadata-refreshing query of the bug #1810 workaround. -/
def sqliteMasterQuery : String := "select * from sqlite_master"

/-- The sqlalchemy engine handle, as far as this module reads it:
`engine.dialect.name` and the optional `optimal_thread_pool_size`
attribute (`Option` models `hasattr`). -/
structure Engine where
  dialectName : String
  optimal_thread_pool_size : Option Nat
deriving DecidableEq, Repr

namespace DBThreadPool

/-- `pool_size = 5; if hasattr(engine, 'optimal_thread_pool_size'):
pool_size = engine.optimal_thread_pool_size` from `__init__`. -/
def pool_size (engine : Engine) : Nat :=
  match engine.optimal_thread_pool_size with
  | some n => n
  | Option.none => 5

/-- The arguments `__init__` passes to `threadpool.ThreadPool.__init__`. -/
structure Sizing where
  minthreads : Nat
  maxthreads : Nat
deriving DecidableEq, Repr

/-- `threadpool.ThreadPool.__init__(self, minthreads=1,
maxthreads=pool_size, name='DBThreadPool')` from `__init__`. -/
def init_sizing (engine : Engine) : Sizing :=
  { minthreads := 1, maxthreads := pool_size engine }

/-- Body of `thd` inside `do`: open a fresh connection, run the bug #1810
mitigation query when `broken_sqlite`, run the callable inside
`try ... finally conn.close()`, with the `ResultProxy` assertion.
Returns the events performed and the value returned or error raised. -/
def doThd (broken_sqlite : Bool) (c : Nat)
    (callable : Nat → Except PyErr PyVal) :
    List Event × Except PyErr PyVal :=
  let mitigation : List Event :=
    if broken_sqlite then [Event.execQuery c sqliteMasterQuery] else []
  let res : Except PyErr PyVal :=
    match callable c with
    | .error e => .error e
    | .ok rv =>
      if rv.isResultProxy then .error (.assertionError resultProxyMsg)
      else .ok rv
  ([Event.openConn c] ++ mitigation ++
     [Event.callCallable c, Event.closeConn c], res)

/-- Body of `thd` inside `do_with_engine`: the mitigation query goes to
the shared engine, the callable receives the engine, no connection is
opened or closed. -/
def doWithEngineThd (broken_sqlite : Bool) (engine : Engine)
    (callable : Engine → Except PyErr PyVal) :
    List Event × Except PyErr PyVal :=
  let mitigation : List Event :=
    if broken_sqlite then [Event.engineExec sqliteMasterQuery] else []
  let res : Except PyErr PyVal :=
    match callable engine with
    | .error e => .error e
    | .ok rv =>
      if rv.isResultProxy then .error (.assertionError resultProxyMsg)
      else .ok rv
  (mitigation ++ [Event.callCallableEngine], res)

end DBThreadPool

/-- The `bug1992hack` decorator: start a 1-second no-op `LoopingCall`,
call the wrapped dispatch (which submits `thd` to the thread pool and
returns a deferred), and stop the loop from an `addBoth` callback once the
deferred fires, passing the result through unchanged. -/
def bug1992hack (body : List Event × Except PyErr PyVal) :
    List Event × Except PyErr PyVal :=
  ([Event.loopStart 1, Event.submit] ++ body.1 ++
     [Event.deliver body.2, Event.loopStop], body.2)

namespace DBThreadPool

/-- `DBThreadPool.do` (named `do_` here because `do` is reserved in
Lean): `bug1992hack` around submitting `thd` to the pool. `c` is the id
of the fresh connection `contextual_connect` hands out for this call. -/
def do_ (broken_sqlite : Bool) (c : Nat)
    (callable : Nat → Except PyErr PyVal) :
    List Event × Except PyErr PyVal :=
  bug1992hack (doThd broken_sqlite c callable)

/-- `DBThreadPool.do_with_engine`: `bug1992hack` around submitting its
`thd` to the pool. -/
def do_with_engine (broken_sqlite : Bool) (engine : Engine)
    (callable : Engine → Except PyErr PyVal) :
    List Event × Except PyErr PyVal :=
  bug1992hack (doWithEngineThd broken_sqlite engine callable)

end DBThreadPool

/-- A Python instance attribute that may be unassigned (reading it raises
`AttributeError`), assigned `None`, or assigned a value. -/
inductive Attr (α : Type) where
  | unset : Attr α
  | pyNone : Attr α
  | val : α → Attr α
deriving DecidableEq, Repr

/-- The lifecycle-relevant state of a `DBThreadPool` instance: the
`running` flag, the `_start_evt` / `_stop_evt` attributes (holding
reactor handles, modelled by `Nat` ids), whether `ThreadPool.start` ran,
and effect counters for `ThreadPool.stop`, `engine.dispose()` and
`reactor.removeSystemEventTrigger`. -/
structure PoolState where
  running : Bool
  start_evt : Attr Nat
  stop_evt : Attr Nat
  tpStarted : Bool
  tpStopCount : Nat
  disposeCount : Nat
  removedTriggers : List Nat
deriving DecidableEq, Repr

namespace DBThreadPool

/-- State right after `__init__`: `running = False` (class attribute),
`self._start_evt = reactor.callWhenRunning(self._start)` (handle id 0);
`_stop_evt` is never assigned in `__init__`. -/
def initState : PoolState :=
  { running := false
    start_evt := .val 0
    stop_evt := .unset
    tpStarted := false
    tpStopCount := 0
    disposeCount := 0
    removedTriggers := [] }

/-- `_start`: clear `_start_evt`; if not `running`, start the thread
pool, register the `during`-`shutdown` trigger (the reactor hands back
handle `trigId`) and set `running`. -/
def _start (trigId : Nat) (s : PoolState) : PoolState :=
  let s := { s with start_evt := Attr.pyNone }
  if s.running then s
  else { s with tpStarted := true, stop_evt := Attr.val trigId,
                running := true }

/-- `_stop`: clear `_stop_evt`, stop the thread pool, dispose the engine,
clear `running`. -/
def _stop (s : PoolState) : PoolState :=
  { s with stop_evt := Attr.pyNone
           tpStopCount := s.tpStopCount + 1
           disposeCount := s.disposeCount + 1
           running := false }

/-- `shutdown`: `if not self._stop_evt: return` (reading an unassigned
attribute raises `AttributeError`; `None` is falsy; a trigger handle is
truthy), then `reactor.removeSystemEventTrigger(self._stop_evt)` and
`self._stop()`. -/
def shutdown (s : PoolState) : Except PyErr PoolState :=
  match s.stop_evt with
  | .unset => .error (.attributeError "_stop_evt")
  | .pyNone => .ok s
  | .val t => .ok (_stop { s with removedTriggers := s.removedTriggers ++ [t] })

end DBThreadPool

/-- Empirical behaviour of one probe read inside `detect_bug1810`:
it succeeds, raises `sqlite.OperationalError`, or raises some other
exception. -/
inductive ProbeOutcome where
  | ok : ProbeOutcome
  | operationalError : ProbeOutcome
  | otherError : String → ProbeOutcome
deriving DecidableEq, Repr

/-- Behaviour of the sqlite backend under the bug #1810 probe:
`unmitigated` is the outcome of `test()` (read the table created on a
second connection without an intervening refresh), `mitigated` the
outcome of `test(select_from_sqlite_master=True)` (same read preceded by
`SELECT * from sqlite_master`). -/
structure SqliteBackend where
  unmitigated : ProbeOutcome
  mitigated : ProbeOutcome
deriving DecidableEq, Repr

namespace DBThreadPool

/-- `detect_bug1810`: run `test()`; `sqlite.OperationalError` is the
expected breakage and yields `True` at once; any other exception
propagates.  If `test()` succeeded, run
`test(select_from_sqlite_master=True)` outside any handler (so any
failure of it propagates) and yield `False`. -/
def detect_bug1810 (b : SqliteBackend) : Except PyErr Bool :=
  match b.unmitigated with
  | .operationalError => .ok true
  | .otherError s => .error (.other s)
  | .ok =>
    match b.mitigated with
    | .ok => .ok false
    | .operationalError => .error .operationalError
    | .otherError s => .error (.other s)

end DBThreadPool

/-- The results the deferred of a bridge call is fired with, in order:
the projection of a trace to its `deliver` events. -/
def deliveries (tr : List Event) : List (Except PyErr PyVal) :=
  tr.filterMap fun e =>
    match e with
    | Event.deliver r => some r
    | _ => Option.none

/-- The SQL statements a trace issues (on a connection or the engine). -/
def queries (tr : List Event) : List String :=
  tr.filterMap fun e =>
    match e with
    | Event.execQuery _ q => some q
    | Event.engineExec q => some q
    | _ => Option.none

/-- The intervals of the `LoopingCall.start` invocations in a trace. -/
def tickStarts (tr : List Event) : List Nat :=
  tr.filterMap fun e =>
    match e with
    | Event.loopStart n => some n
    | _ => Option.none

/-- How many times a trace stops the busy-loop tick. -/
def tickStops (tr : List Event) : Nat :=
  (tr.filterMap fun e =>
    match e with
    | Event.loopStop => some Unit.unit
    | _ => Option.none).length

end DBPool

namespace DBPool

/-- C5: a pool built on an engine exposing `optimal_thread_pool_size = n`
has `maxthreads = n`; one built on an engine without the attribute has
`maxthreads = 5` and `minthreads = 1`. -/
theorem c5_pool_sizing (engine : Engine) :
    (∀ n, engine.optimal_thread_pool_size = some n →
      (DBThreadPool.init_sizing engine).maxthreads = n) ∧
    (engine.optimal_thread_pool_size = Option.none →
      (DBThreadPool.init_sizing engine).maxthreads = 5 ∧
      (DBThreadPool.init_sizing engine).minthreads = 1) := by
  refine ⟨fun n h => ?_, fun h => ?_⟩ <;>
    simp [DBThreadPool.init_sizing, DBThreadPool.pool_size, h]

/-- Witness for C5 at the two concrete engines of the claim: the hint 1
yields max workers 1; no hint yields max 5, min 1. -/
theorem c5_pool_sizing_witness :
    (DBThreadPool.init_sizing ⟨"sqlite", some 1⟩).maxthreads = 1 ∧
    (DBThreadPool.init_sizing ⟨"postgres", Option.none⟩).maxthreads = 5 ∧
    (DBThreadPool.init_sizing ⟨"postgres", Option.none⟩).minthreads = 1 :=
  ⟨(c5_pool_sizing ⟨"sqlite", some 1⟩).1 1 rfl,
   ((c5_pool_sizing ⟨"postgres", Option.none⟩).2 rfl).1,
   ((c5_pool_sizing ⟨"postgres", Option.none⟩).2 rfl).2⟩

/-- C10: `shutdown()` on a pool whose `_start` callback never ran (so
`_stop_evt` was never assigned) raises `AttributeError` instead of being
a no-op. -/
theorem c10_shutdown_before_start :
    DBThreadPool.shutdown DBThreadPool.initState =
      .error (.attributeError "_stop_evt") := rfl

/-- C4: on a started pool, the first `shutdown()` succeeds and disposes
the engine once; the second `shutdown()` returns the state unchanged
(a no-op, not an error), leaving the total dispose count at 1. -/
theorem c4_shutdown_idempotent (trigId : Nat) :
    ∃ s1 : PoolState,
      DBThreadPool.shutdown
          (DBThreadPool._start trigId DBThreadPool.initState) = .ok s1 ∧
      s1.disposeCount = 1 ∧
      DBThreadPool.shutdown s1 = .ok s1 :=
  ⟨_, rfl, rfl, rfl⟩

/-- Witness for C4 at the concrete trigger handle 7. -/
theorem c4_shutdown_idempotent_witness :
    ∃ s1 : PoolState,
      DBThreadPool.shutdown
          (DBThreadPool._start 7 DBThreadPool.initState) = .ok s1 ∧
      s1.disposeCount = 1 ∧
      DBThreadPool.shutdown s1 = .ok s1 :=
  c4_shutdown_idempotent 7

/-- Counterexample to C6 as stated: on a backend where the unmitigated
read raises the expected `OperationalError` but the refresh-mitigated
read would also fail, the probe still returns `present` (`True`) — so
"returns present only when the refresh-mitigated read succeeds" is
false: the mitigated read is never consulted on that path. -/
theorem c6_counterexample :
    DBThreadPool.detect_bug1810
        ⟨ProbeOutcome.operationalError, ProbeOutcome.operationalError⟩ =
      .ok true ∧
    (⟨ProbeOutcome.operationalError, ProbeOutcome.operationalError⟩ :
        SqliteBackend).mitigated ≠ ProbeOutcome.ok :=
  ⟨rfl, by decide⟩

/-- C6 amended: the probe returns `present` exactly when the unmitigated
read fails with the expected `OperationalError` (the mitigated read is
not consulted on that path); it returns `absent` exactly when the
unmitigated read and the subsequent refresh-mitigated verification both
succeed; in every other case — an unexpected error of either read — the
error propagates as a probe failure rather than being read as present or
absent. -/
theorem c6_detect_bug1810_amended (b : SqliteBackend) :
    (DBThreadPool.detect_bug1810 b = .ok true ↔
       b.unmitigated = ProbeOutcome.operationalError) ∧
    (DBThreadPool.detect_bug1810 b = .ok false ↔
       b.unmitigated = ProbeOutcome.ok ∧ b.mitigated = ProbeOutcome.ok) ∧
    ((∃ e, DBThreadPool.detect_bug1810 b = .error e) ↔
       ¬(b.unmitigated = ProbeOutcome.operationalError ∨
         (b.unmitigated = ProbeOutcome.ok ∧ b.mitigated = ProbeOutcome.ok))) := by
  obtain ⟨u, m⟩ := b
  cases u <;> cases m <;> simp [DBThreadPool.detect_bug1810]

/-- Witness for C6's amended statement: a healthy backend (both reads
succeed) is reported `absent`. -/
theorem c6_detect_bug1810_amended_witness :
    DBThreadPool.detect_bug1810 ⟨ProbeOutcome.ok, ProbeOutcome.ok⟩ =
      .ok false :=
  ((c6_detect_bug1810_amended ⟨ProbeOutcome.ok, ProbeOutcome.ok⟩).2.1).mpr
    ⟨rfl, rfl⟩

/-- C1: when the callable returns `v` (a materialised value, not a
`ResultProxy`) on connection `c`, `do` fires its deferred with `v` and
with nothing else, and the trace submits the task to the pool, opens the
fresh connection `c`, invokes the callable on `c`, closes `c` afterwards,
and only then delivers — in that order. -/
theorem c1_do_success (broken : Bool) (c : Nat)
    (callable : Nat → Except PyErr PyVal) (v : PyVal)
    (hret : callable c = .ok v) (hmat : v.isResultProxy = false) :
    (DBThreadPool.do_ broken c callable).2 = .ok v ∧
    deliveries (DBThreadPool.do_ broken c callable).1 = [.ok v] ∧
    [Event.submit, Event.openConn c, Event.callCallable c,
      Event.closeConn c, Event.deliver (.ok v)].Sublist
        (DBThreadPool.do_ broken c callable).1 := by
  cases broken <;>
    refine ⟨?_, ?_, ?_⟩ <;>
      simp [DBThreadPool.do_, DBThreadPool.doThd, bug1992hack, deliveries,
            hret, hmat]

/-- Witness for C1: a callable returning the integer `7`. -/
theorem c1_do_success_witness :
    (fun _ => Except.ok (PyVal.int 7) : Nat → Except PyErr PyVal) 0 =
        .ok (.int 7) ∧
    (DBThreadPool.do_ false 0 (fun _ => .ok (.int 7))).2 = .ok (.int 7) ∧
    deliveries (DBThreadPool.do_ false 0 (fun _ => .ok (.int 7))).1 =
        [.ok (.int 7)] :=
  ⟨rfl,
   (c1_do_success false 0 (fun _ => .ok (.int 7)) (.int 7) rfl rfl).1,
   (c1_do_success false 0 (fun _ => .ok (.int 7)) (.int 7) rfl rfl).2.1⟩

/-- C2: when the callable raises `e` on connection `c`, `do`'s deferred
fails with exactly `e` and with nothing else, and the connection is still
closed after the callable ran (the `finally` block). -/
theorem c2_do_error (broken : Bool) (c : Nat)
    (callable : Nat → Except PyErr PyVal) (e : PyErr)
    (hret : callable c = .error e) :
    (DBThreadPool.do_ broken c callable).2 = .error e ∧
    deliveries (DBThreadPool.do_ broken c callable).1 = [.error e] ∧
    [Event.openConn c, Event.callCallable c, Event.closeConn c,
      Event.deliver (.error e)].Sublist
        (DBThreadPool.do_ broken c callable).1 := by
  cases broken <;>
    refine ⟨?_, ?_, ?_⟩ <;>
      simp [DBThreadPool.do_, DBThreadPool.doThd, bug1992hack, deliveries,
            hret]
  exact .cons _ (.cons _ (.cons₂ _ (.cons _ (.cons₂ _ (.cons₂ _ (.cons₂ _
    (List.nil_sublist _)))))))

/-- Witness for C2: a callable raising `ValueError("x")`. -/
theorem c2_do_error_witness :
    (fun _ => Except.error (PyErr.valueError "x") :
        Nat → Except PyErr PyVal) 0 = .error (.valueError "x") ∧
    (DBThreadPool.do_ false 0 (fun _ => .error (.valueError "x"))).2 =
        .error (.valueError "x") ∧
    deliveries
        (DBThreadPool.do_ false 0 (fun _ => .error (.valueError "x"))).1 =
      [.error (.valueError "x")] :=
  ⟨rfl,
   (c2_do_error false 0 (fun _ => .error (.valueError "x"))
     (.valueError "x") rfl).1,
   (c2_do_error false 0 (fun _ => .error (.valueError "x"))
     (.valueError "x") rfl).2.1⟩

/-- C3: a callable returning a live `ResultProxy` makes both `do` and
`do_with_engine` fire their deferred with the assertion failure, and the
value is never delivered: the only delivery is that failure. -/
theorem c3_resultProxy_assertion (broken : Bool) (c : Nat)
    (callable : Nat → Except PyErr PyVal) (n : Nat)
    (hret : callable c = .ok (.resultProxy n))
    (engine : Engine) (ke : Engine → Except PyErr PyVal) (m : Nat)
    (hke : ke engine = .ok (.resultProxy m)) :
    (DBThreadPool.do_ broken c callable).2 =
        .error (.assertionError resultProxyMsg) ∧
    deliveries (DBThreadPool.do_ broken c callable).1 =
        [.error (.assertionError resultProxyMsg)] ∧
    (DBThreadPool.do_with_engine broken engine ke).2 =
        .error (.assertionError resultProxyMsg) ∧
    deliveries (DBThreadPool.do_with_engine broken engine ke).1 =
        [.error (.assertionError resultProxyMsg)] := by
  cases broken <;>
    refine ⟨?_, ?_, ?_, ?_⟩ <;>
      simp [DBThreadPool.do_, DBThreadPool.doThd,
            DBThreadPool.do_with_engine, DBThreadPool.doWithEngineThd,
            bug1992hack, deliveries, hret, hke, PyVal.isResultProxy]

/-- Witness for C3: callables returning `ResultProxy` handles. -/
theorem c3_resultProxy_assertion_witness :
    (DBThreadPool.do_ false 0 (fun _ => .ok (.resultProxy 4))).2 =
        .error (.assertionError resultProxyMsg) ∧
    (DBThreadPool.do_with_engine false ⟨"sqlite", some 1⟩
        (fun _ => .ok (.resultProxy 4))).2 =
      .error (.assertionError resultProxyMsg) :=
  ⟨(c3_resultProxy_assertion false 0 (fun _ => .ok (.resultProxy 4)) 4 rfl
      ⟨"sqlite", some 1⟩ (fun _ => .ok (.resultProxy 4)) 4 rfl).1,
   (c3_resultProxy_assertion false 0 (fun _ => .ok (.resultProxy 4)) 4 rfl
      ⟨"sqlite", some 1⟩ (fun _ => .ok (.resultProxy 4)) 4 rfl).2.2.1⟩

/-- C8: with the broken-sqlite flag set, both entry points issue exactly
the fixed `select * from sqlite_master` query, and they issue it before
the callable is invoked; with the flag clear, neither issues any query. -/
theorem c8_mitigation_query (c : Nat)
    (callable : Nat → Except PyErr PyVal)
    (engine : Engine) (ke : Engine → Except PyErr PyVal) :
    queries (DBThreadPool.do_ true c callable).1 = [sqliteMasterQuery] ∧
    [Event.execQuery c sqliteMasterQuery, Event.callCallable c].Sublist
        (DBThreadPool.do_ true c callable).1 ∧
    queries (DBThreadPool.do_ false c callable).1 = [] ∧
    queries (DBThreadPool.do_with_engine true engine ke).1 =
        [sqliteMasterQuery] ∧
    [Event.engineExec sqliteMasterQuery, Event.callCallableEngine].Sublist
        (DBThreadPool.do_with_engine true engine ke).1 ∧
    queries (DBThreadPool.do_with_engine false engine ke).1 = [] := by
  refine ⟨?_, ?_, ?_, ?_, ?_, ?_⟩ <;>
    simp [DBThreadPool.do_, DBThreadPool.doThd,
          DBThreadPool.do_with_engine, DBThreadPool.doWithEngineThd,
          bug1992hack, queries]
  exact .cons _ (.cons _ (.cons _ (.cons₂ _ (.cons₂ _
    (List.nil_sublist _)))))

/-- Witness for C8 at connection 0 and a concrete callable and engine. -/
theorem c8_mitigation_query_witness :
    queries (DBThreadPool.do_ true 0 (fun _ => .ok PyVal.none)).1 =
        [sqliteMasterQuery] ∧
    queries (DBThreadPool.do_ false 0 (fun _ => .ok PyVal.none)).1 = [] ∧
    queries (DBThreadPool.do_with_engine true ⟨"sqlite", Option.none⟩
        (fun _ => .ok PyVal.none)).1 = [sqliteMasterQuery] ∧
    queries (DBThreadPool.do_with_engine false ⟨"sqlite", Option.none⟩
        (fun _ => .ok PyVal.none)).1 = [] :=
  ⟨(c8_mitigation_query 0 (fun _ => .ok PyVal.none) ⟨"sqlite", Option.none⟩
      (fun _ => .ok PyVal.none)).1,
   (c8_mitigation_query 0 (fun _ => .ok PyVal.none) ⟨"sqlite", Option.none⟩
      (fun _ => .ok PyVal.none)).2.2.1,
   (c8_mitigation_query 0 (fun _ => .ok PyVal.none) ⟨"sqlite", Option.none⟩
      (fun _ => .ok PyVal.none)).2.2.2.1,
   (c8_mitigation_query 0 (fun _ => .ok PyVal.none) ⟨"sqlite", Option.none⟩
      (fun _ => .ok PyVal.none)).2.2.2.2.2⟩

/-- C9: every `do` and `do_with_engine` call starts the interval-1 no-op
tick as its very first action (in particular before the task is
submitted), submits exactly once, delivers exactly one result, stops the
tick exactly once, and the stop is the last event (so it follows the
delivery), whatever the callable does. -/
theorem c9_liveness_guard (broken : Bool) (c : Nat)
    (callable : Nat → Except PyErr PyVal)
    (engine : Engine) (ke : Engine → Except PyErr PyVal) :
    ((DBThreadPool.do_ broken c callable).1.head? =
        some (Event.loopStart 1) ∧
     tickStarts (DBThreadPool.do_ broken c callable).1 = [1] ∧
     Event.submit ∈ (DBThreadPool.do_ broken c callable).1 ∧
     (deliveries (DBThreadPool.do_ broken c callable).1).length = 1 ∧
     tickStops (DBThreadPool.do_ broken c callable).1 = 1 ∧
     (DBThreadPool.do_ broken c callable).1.getLast? =
        some Event.loopStop) ∧
    ((DBThreadPool.do_with_engine broken engine ke).1.head? =
        some (Event.loopStart 1) ∧
     tickStarts (DBThreadPool.do_with_engine broken engine ke).1 = [1] ∧
     Event.submit ∈ (DBThreadPool.do_with_engine broken engine ke).1 ∧
     (deliveries
        (DBThreadPool.do_with_engine broken engine ke).1).length = 1 ∧
     tickStops (DBThreadPool.do_with_engine broken engine ke).1 = 1 ∧
     (DBThreadPool.do_with_engine broken engine ke).1.getLast? =
        some Event.loopStop) := by
  cases broken <;>
    exact ⟨⟨rfl, rfl, by simp [DBThreadPool.do_, DBThreadPool.doThd,
              bug1992hack],
            rfl, rfl, rfl⟩,
           ⟨rfl, rfl, by simp [DBThreadPool.do_with_engine,
              DBThreadPool.doWithEngineThd, bug1992hack],
            rfl, rfl, rfl⟩⟩

/-- Witness for C9 at a concrete erroring callable: the tick starts
first with interval 1 and is stopped exactly once. -/
theorem c9_liveness_guard_witness :
    (DBThreadPool.do_ false 0
        (fun _ => .error (.valueError "x"))).1.head? =
      some (Event.loopStart 1) ∧
    tickStops (DBThreadPool.do_ false 0
        (fun _ => .error (.valueError "x"))).1 = 1 ∧
    (DBThreadPool.do_ false 0
        (fun _ => .error (.valueError "x"))).1.getLast? =
      some Event.loopStop :=
  ⟨(c9_liveness_guard false 0 (fun _ => .error (.valueError "x"))
      ⟨"sqlite", Option.none⟩ (fun _ => .ok PyVal.none)).1.1,
   (c9_liveness_guard false 0 (fun _ => .error (.valueError "x"))
      ⟨"sqlite", Option.none⟩ (fun _ => .ok PyVal.none)).1.2.2.2.2.1,
   (c9_liveness_guard false 0 (fun _ => .error (.valueError "x"))
      ⟨"sqlite", Option.none⟩ (fun _ => .ok PyVal.none)).1.2.2.2.2.2⟩

end DBPool
